import Mathlib

/-!
Verification of the ngraph distributed/lowering/decomposition excerpt.

This file shallowly embeds the relevant C++ code:
  * `src/ngraph/distributed/open_mpi.hpp` — the `OpenMPIDistributedInterface`
    class (constructor, destructor, `all_reduce`, `broadcast`, `send`, `recv`,
    `ngraph_type_to_mpi_type`);
  * `src/contrib/mlir/core/pass/convert/mvn_v0.cpp` — the registered converter
    `NgDialectConversionPass::createOp<ngraph::op::v0::MVN>`;
  * `src/ngraph/op/fused/lstm_cell.hpp` — the `LSTMCell` constructor overload
    with defaulted parameters.

MPI itself is modelled by an explicit world state (initialized/finalized flags)
plus a trace of transport calls; the collective semantics of `MPI_Allreduce`
is modelled as the elementwise fold of all ranks' input buffers, delivered
identically to every rank. `NGRAPH_ASSERT` failures and C++ exceptions are
modelled as `Except.error` carrying the diagnostic message.
-/

set_option autoImplicit false

namespace ngraph

namespace element

/-- Embeds `ngraph::element::Type_t`: the element-type enumeration, with the
members the distributed code inspects. -/
inductive Type_t where
  | undefined
  | dynamic
  | boolean
  | bf16
  | f16
  | f32
  | f64
  | i8
  | i16
  | i32
  | i64
  | u8
  | u16
  | u32
  | u64
deriving DecidableEq, Repr

end element

namespace reduction

/-- Embeds `ngraph::reduction::Type` (named `Kind` here because `Type` is a
Lean keyword): the enumeration of reduction kinds. -/
inductive Kind where
  | SUM
  | PROD
  | MIN
  | MAX
deriving DecidableEq, Repr

end reduction

namespace distributed

/-- The MPI datatype constants the code selects among. -/
inductive MPI_Datatype where
  | MPI_BYTE
  | MPI_SHORT
  | MPI_INT
  | MPI_LONG
  | MPI_UNSIGNED_CHAR
  | MPI_UNSIGNED_SHORT
  | MPI_UNSIGNED
  | MPI_UNSIGNED_LONG
  | MPI_FLOAT
  | MPI_DOUBLE
deriving DecidableEq, Repr

/-- The MPI reduction-operation constants. -/
inductive MPI_Op where
  | MPI_SUM
  | MPI_PROD
  | MPI_MIN
  | MPI_MAX
deriving DecidableEq, Repr

/-- A call made against the MPI transport, recorded in a trace. -/
inductive MPICall where
  | mpi_init
  | mpi_finalize
  | mpi_allreduce (dt : MPI_Datatype) (op : MPI_Op) (count : Nat)
  | mpi_bcast (dt : MPI_Datatype) (count : Nat) (root_id : Int)
  | mpi_send (dt : MPI_Datatype) (count : Nat) (dest_id : Int)
  | mpi_recv (dt : MPI_Datatype) (count : Nat) (src_id : Int)
deriving DecidableEq, Repr

/-- The process-wide MPI state observed via `MPI_Initialized` and
`MPI_Finalized`. -/
structure MPIWorld where
  initialized : Bool
  finalized : Bool
deriving DecidableEq, Repr

/-- Embeds the data members of `OpenMPIDistributedInterface` relevant to its
lifecycle: `m_name`, `m_initialized_mpi`, `m_manage_communicator`. -/
structure OpenMPIDistributedInterface where
  m_name : String
  m_initialized_mpi : Bool
  m_manage_communicator : Bool
deriving DecidableEq, Repr

/-- Embeds `OpenMPIDistributedInterface::create_context`: calls `MPI_Init`. -/
def create_context (w : MPIWorld) : MPIWorld × List MPICall :=
  ({ w with initialized := true }, [MPICall.mpi_init])

/-- Embeds `OpenMPIDistributedInterface::free_context`: calls `MPI_Finalize`. -/
def free_context (w : MPIWorld) : MPIWorld × List MPICall :=
  ({ w with finalized := true }, [MPICall.mpi_finalize])

/-- Embeds the `OpenMPIDistributedInterface` constructor. A failed
`NGRAPH_ASSERT` is modelled as `Except.error` with the streamed message.
In the owning branch (`manage_communicator == true`) the code asserts
`is_mpi_initialized == false`, then calls `create_context()` and sets
`m_initialized_mpi = true`. In the borrowing branch the code as written
likewise asserts `is_mpi_initialized == false` (its message speaks of reusing
an existing communicator) and performs no transport call; `m_initialized_mpi`
keeps its member-initializer value `false`. -/
def OpenMPIDistributedInterface.construct (name : String)
    (manage_communicator : Bool) (w : MPIWorld) :
    Except String (OpenMPIDistributedInterface × MPIWorld × List MPICall) :=
  if manage_communicator = true then
    let is_mpi_initialized : Bool := w.initialized
    if is_mpi_initialized = false then
      let res := create_context w
      Except.ok ({ m_name := name, m_initialized_mpi := true,
                   m_manage_communicator := manage_communicator },
                 res.1, res.2)
    else
      Except.error
        "Expect to initial MPI comunicator, but MPI had been initialized."
  else
    let is_mpi_initialized : Bool := w.initialized
    if is_mpi_initialized = false then
      Except.ok ({ m_name := name, m_initialized_mpi := false,
                   m_manage_communicator := manage_communicator }, w, [])
    else
      Except.error
        "Expect to reuse existing MPI comunicator, but MPI has not been initialized."

/-- Embeds `~OpenMPIDistributedInterface`: when `m_manage_communicator` holds,
reads `MPI_Finalized`, and if MPI is not finalized and this instance
initialized it, calls `free_context()` and clears `m_initialized_mpi`. -/
def OpenMPIDistributedInterface.destruct (self : OpenMPIDistributedInterface)
    (w : MPIWorld) : OpenMPIDistributedInterface × MPIWorld × List MPICall :=
  if self.m_manage_communicator = true then
    let is_mpi_finalized : Bool := w.finalized
    if is_mpi_finalized = false ∧ self.m_initialized_mpi = true then
      let res := free_context w
      ({ self with m_initialized_mpi := false }, res.1, res.2)
    else (self, w, [])
  else (self, w, [])

/-- Embeds the element-type selection at the head of
`OpenMPIDistributedInterface::all_reduce`: `f32 ↦ MPI_FLOAT`,
`f64 ↦ MPI_DOUBLE`, anything else throws. -/
def allReduceDatatype (element_type : element.Type_t) :
    Except String MPI_Datatype :=
  if element_type = element.Type_t.f32 then
    Except.ok MPI_Datatype.MPI_FLOAT
  else if element_type = element.Type_t.f64 then
    Except.ok MPI_Datatype.MPI_DOUBLE
  else
    Except.error "AllReduce op supports only f32 and f64 types"

/-- Embeds the `switch (reduce_type)` in `all_reduce`: the exhaustive mapping
from reduction kind to MPI reduction operation, with no default case. -/
def mpiReduceType : reduction.Kind → MPI_Op
  | reduction.Kind.SUM => MPI_Op.MPI_SUM
  | reduction.Kind.PROD => MPI_Op.MPI_PROD
  | reduction.Kind.MIN => MPI_Op.MPI_MIN
  | reduction.Kind.MAX => MPI_Op.MPI_MAX

/-- The binary fold an MPI reduction operation performs on one element. -/
def mpiOpFold : MPI_Op → Int → Int → Int
  | MPI_Op.MPI_SUM => fun a b => a + b
  | MPI_Op.MPI_PROD => fun a b => a * b
  | MPI_Op.MPI_MIN => fun a b => min a b
  | MPI_Op.MPI_MAX => fun a b => max a b

/-- Model of `MPI_Allreduce`: the elementwise fold of every rank's input
buffer; the identical reduced buffer is delivered to each rank. -/
def mpiAllreduceModel (op : MPI_Op) : List (List Int) → List Int
  | [] => []
  | b :: rest => rest.foldl (fun acc l => List.zipWith (mpiOpFold op) acc l) b

/-- Embeds `OpenMPIDistributedInterface::all_reduce` for one calling rank.
`group_inputs` lists every rank's input buffer (this rank included), `out` is
the caller's output buffer before the call. Mirrors the source order: first
the element-type selection (which throws for anything but f32/f64), then the
exhaustive reduction-kind switch, then the single `MPI_Allreduce` transport
call. Returns the output buffer after the call, the transport-call trace, and
the thrown message if any; on a throw the output buffer is returned as it
was and the trace is empty. -/
def all_reduce (group_inputs : List (List Int)) (out : List Int)
    (element_type : element.Type_t) (reduce_type : reduction.Kind)
    (count : Nat) : List Int × List MPICall × Option String :=
  match allReduceDatatype element_type with
  | Except.error e => (out, [], some e)
  | Except.ok data_type =>
      let mpi_reduce_type := mpiReduceType reduce_type
      (mpiAllreduceModel mpi_reduce_type group_inputs,
       [MPICall.mpi_allreduce data_type mpi_reduce_type count], none)

/-- Embeds the element-type selection in
`OpenMPIDistributedInterface::broadcast`: `data_type` starts as `MPI_FLOAT`,
is set to `MPI_DOUBLE` for f64, and the code throws when the type is neither
f64 nor f32. -/
def broadcastDatatype (element_type : element.Type_t) :
    Except String MPI_Datatype :=
  if element_type = element.Type_t.f64 then
    Except.ok MPI_Datatype.MPI_DOUBLE
  else if element_type ≠ element.Type_t.f32 then
    Except.error "BroadcastDistributed op supports only f32 and f64 types"
  else
    Except.ok MPI_Datatype.MPI_FLOAT

/-- Embeds `OpenMPIDistributedInterface::broadcast`: selects the datatype and
performs a single `MPI_Bcast` call, or throws without any transport call. -/
def broadcast (element_type : element.Type_t) (count : Nat) (root_id : Int) :
    List MPICall × Option String :=
  match broadcastDatatype element_type with
  | Except.error e => ([], some e)
  | Except.ok data_type =>
      ([MPICall.mpi_bcast data_type count root_id], none)

/-- Embeds `OpenMPIDistributedInterface::ngraph_type_to_mpi_type`: the
exhaustive switch from element type to MPI datatype; `bf16`, `f16`,
`undefined` and `dynamic` throw `"unsupported type"`. -/
def ngraph_type_to_mpi_type : element.Type_t → Except String MPI_Datatype
  | element.Type_t.boolean => Except.ok MPI_Datatype.MPI_BYTE
  | element.Type_t.f32 => Except.ok MPI_Datatype.MPI_FLOAT
  | element.Type_t.f64 => Except.ok MPI_Datatype.MPI_DOUBLE
  | element.Type_t.i8 => Except.ok MPI_Datatype.MPI_BYTE
  | element.Type_t.i16 => Except.ok MPI_Datatype.MPI_SHORT
  | element.Type_t.i32 => Except.ok MPI_Datatype.MPI_INT
  | element.Type_t.i64 => Except.ok MPI_Datatype.MPI_LONG
  | element.Type_t.u8 => Except.ok MPI_Datatype.MPI_UNSIGNED_CHAR
  | element.Type_t.u16 => Except.ok MPI_Datatype.MPI_UNSIGNED_SHORT
  | element.Type_t.u32 => Except.ok MPI_Datatype.MPI_UNSIGNED
  | element.Type_t.u64 => Except.ok MPI_Datatype.MPI_UNSIGNED_LONG
  | element.Type_t.bf16 => Except.error "unsupported type"
  | element.Type_t.f16 => Except.error "unsupported type"
  | element.Type_t.undefined => Except.error "unsupported type"
  | element.Type_t.dynamic => Except.error "unsupported type"

/-- Embeds `OpenMPIDistributedInterface::recv`: bf16 and f16 are transported
as `MPI_SHORT`, every other type goes through `ngraph_type_to_mpi_type`;
on success a single `MPI_Recv` call is made. -/
def recv (element_type : element.Type_t) (count : Nat) (src_id : Int) :
    Except String MPICall :=
  if element_type = element.Type_t.bf16 ∨ element_type = element.Type_t.f16 then
    Except.ok (MPICall.mpi_recv MPI_Datatype.MPI_SHORT count src_id)
  else
    match ngraph_type_to_mpi_type element_type with
    | Except.error e => Except.error e
    | Except.ok data_type =>
        Except.ok (MPICall.mpi_recv data_type count src_id)

/-- Embeds `OpenMPIDistributedInterface::send`: bf16 and f16 are transported
as `MPI_SHORT`, every other type goes through `ngraph_type_to_mpi_type`;
on success a single `MPI_Send` call is made. -/
def send (element_type : element.Type_t) (count : Nat) (dest_id : Int) :
    Except String MPICall :=
  if element_type = element.Type_t.bf16 ∨ element_type = element.Type_t.f16 then
    Except.ok (MPICall.mpi_send MPI_Datatype.MPI_SHORT count dest_id)
  else
    match ngraph_type_to_mpi_type element_type with
    | Except.error e => Except.error e
    | Except.ok data_type =>
        Except.ok (MPICall.mpi_send data_type count dest_id)

end distributed

namespace pass

/-- Operator identities as seen by the dialect-conversion pass; `v0_MVN`
stands for `ngraph::op::v0::MVN`, `other` for any other concrete operator
class (by display name). -/
inductive NgOpIdentity where
  | v0_MVN
  | other (name : String)
deriving DecidableEq, Repr

/-- The part of `ngraph::Node` the MVN converter inspects: its concrete
operator identity (what `dynamic_cast<const ngraph::op::v0::MVN*>` tests). -/
structure NgNode where
  identity : NgOpIdentity
deriving DecidableEq, Repr

/-- Failure modes of a converter: an `NGRAPH_CHECK` failure, or the
`unsupported_op` exception thrown for explicitly unsupported operators. -/
inductive ConvertError where
  | check_failure (msg : String)
  | unsupported_op (msg : String)
deriving DecidableEq, Repr

/-- A constructed target-IR operation (`mlir::Operation*`), by opcode. -/
structure MLIROp where
  opcode : String
deriving DecidableEq, Repr

/-- Embeds the template specialization
`NgDialectConversionPass::createOp<ngraph::op::v0::MVN>`: the
`dynamic_cast`/`NGRAPH_CHECK` guard, then an unconditional
`throw unsupported_op("Unsupported op 'v0::MVN'")`; no operation is ever
constructed. -/
def createOp_MVN (ngNode : NgNode) : Except ConvertError MLIROp :=
  if ngNode.identity = NgOpIdentity.v0_MVN then
    Except.error (ConvertError.unsupported_op "Unsupported op 'v0::MVN'")
  else
    Except.error (ConvertError.check_failure "ngNode is not a v0::MVN")

/-- Modelled from the spec: the dialect-lowering dispatch of
`NgDialectConversionPass` (its converter registration table lives in
`ng_dialect_builder.hpp/cpp`, which is not under `src/`). Looking up an
operator identity with no registered converter fails deterministically with
the unsupported-operator condition carrying that operator's name, and emits
no target-IR construct. -/
def dispatchLower (table : List (String × (NgNode → Except ConvertError MLIROp)))
    (node : NgNode) (opName : String) : Except ConvertError MLIROp :=
  match table.find? (fun entry => entry.1 == opName) with
  | some entry => entry.2 node
  | none =>
      Except.error
        (ConvertError.unsupported_op ("Unsupported op '" ++ opName ++ "'"))

end pass

namespace op

/-- An upstream graph-node reference (`std::shared_ptr<Node>`), abstracted to
an identifier: the LSTMCell constructor only stores these. -/
def NodeRef := Nat
deriving DecidableEq, Repr

/-- Embeds the constructor arguments `LSTMCell` stores, for the overload
`LSTMCell(X, W, R, H_t, C_t, hidden_size, B, P, activations,
activation_alpha, activation_beta, clip, input_forget)` of
`src/ngraph/op/fused/lstm_cell.hpp`. `float` parameters are modelled as `Rat`. -/
structure LSTMCell where
  m_X : NodeRef
  m_W : NodeRef
  m_R : NodeRef
  m_H_t : NodeRef
  m_C_t : NodeRef
  hidden_size : Nat
  m_B : NodeRef
  m_P : NodeRef
  activations : List String
  activation_alpha : List Rat
  activation_beta : List Rat
  clip : Rat
  m_input_forget : Bool
deriving DecidableEq, Repr

/-- Embeds a call to the third `LSTMCell` constructor overload with every
argument supplied explicitly. -/
def LSTMCell.construct (X W R H_t C_t : NodeRef) (hidden_size : Nat)
    (B P : NodeRef) (activations : List String)
    (activation_alpha activation_beta : List Rat) (clip : Rat)
    (input_forget : Bool) : LSTMCell :=
  { m_X := X, m_W := W, m_R := R, m_H_t := H_t, m_C_t := C_t,
    hidden_size := hidden_size, m_B := B, m_P := P,
    activations := activations, activation_alpha := activation_alpha,
    activation_beta := activation_beta, clip := clip,
    m_input_forget := input_forget }

/-- Embeds a call to the same constructor overload with the trailing
arguments omitted: per the declared C++ default arguments, `activations`
becomes `{"sigmoid", "tanh", "tanh"}`, `activation_alpha` and
`activation_beta` become empty, `clip` becomes `0.f` and `input_forget`
becomes `false`. -/
def LSTMCell.constructOmitted (X W R H_t C_t : NodeRef) (hidden_size : Nat)
    (B P : NodeRef) : LSTMCell :=
  LSTMCell.construct X W R H_t C_t hidden_size B P
    ["sigmoid", "tanh", "tanh"] [] [] 0 false

end op

end ngraph

namespace ngraph

open element distributed

/-- C6: constructing an owning `OpenMPIDistributedInterface`
(`manage_communicator = true`) fails the `NGRAPH_ASSERT` exactly when MPI
reports itself already initialized; otherwise it initializes the context with
exactly one `MPI_Init` call and records ownership by setting
`m_initialized_mpi`. -/
theorem owning_construction_asserts_then_inits_once (name : String)
    (w : MPIWorld) :
    OpenMPIDistributedInterface.construct name true w
      = (if w.initialized = true then
          Except.error
            "Expect to initial MPI comunicator, but MPI had been initialized."
         else
          Except.ok
            ({ m_name := name, m_initialized_mpi := true,
               m_manage_communicator := true },
             { initialized := true, finalized := w.finalized },
             [MPICall.mpi_init])) := by
  rcases w with ⟨i, f⟩
  cases i <;> simp [OpenMPIDistributedInterface.construct, create_context]

/-- C7: the destructor performs `MPI_Finalize` exactly once when the instance
manages the communicator, MPI is not already finalized, and this instance
performed the initialization; in every other case — in particular for every
borrowing instance (`m_manage_communicator = false`) — it performs no
finalize call. -/
theorem destruction_finalizes_at_most_once_only_owner
    (self : OpenMPIDistributedInterface) (w : MPIWorld) :
    (self.destruct w).2.2.count MPICall.mpi_finalize
      = (if self.m_manage_communicator = true ∧ w.finalized = false
            ∧ self.m_initialized_mpi = true
         then 1 else 0) := by
  rcases self with ⟨n, im, mc⟩
  rcases w with ⟨i, f⟩
  cases mc <;> cases im <;> cases f <;>
    simp [OpenMPIDistributedInterface.destruct, free_context]

/-- C1: evaluation of the borrowing constructor
(`manage_communicator = false`) on both MPI states: the code as written
asserts `is_mpi_initialized == false`, so it aborts precisely when an MPI
context IS already initialized, and constructs successfully (performing no
transport call) when none is initialized — the reverse of asserting that the
transport is already initialized. -/
theorem borrowing_construction_behavior :
    OpenMPIDistributedInterface.construct "OpenMPI" false
        { initialized := true, finalized := false }
      = Except.error
          "Expect to reuse existing MPI comunicator, but MPI has not been initialized."
    ∧ OpenMPIDistributedInterface.construct "OpenMPI" false
        { initialized := false, finalized := false }
      = Except.ok
          ({ m_name := "OpenMPI", m_initialized_mpi := false,
             m_manage_communicator := false },
           { initialized := false, finalized := false }, []) :=
  ⟨rfl, rfl⟩

/-- C3: the element-type selection of `all_reduce` and of `broadcast`
succeeds exactly for `f32` and `f64`, and for every other element type —
`bf16` and `f16` included — throws the documented "supports only f32 and
f64 types" message. -/
theorem collectives_support_exactly_f32_f64 (t : element.Type_t) :
    ((allReduceDatatype t).toOption.isSome
      = decide (t = element.Type_t.f32 ∨ t = element.Type_t.f64))
    ∧ ((broadcastDatatype t).toOption.isSome
      = decide (t = element.Type_t.f32 ∨ t = element.Type_t.f64))
    ∧ ((allReduceDatatype t).toOption.isSome = true
       ∨ allReduceDatatype t
           = Except.error "AllReduce op supports only f32 and f64 types")
    ∧ ((broadcastDatatype t).toOption.isSome = true
       ∨ broadcastDatatype t
           = Except.error
               "BroadcastDistributed op supports only f32 and f64 types") := by
  cases t <;>
    simp [allReduceDatatype, broadcastDatatype, Except.toOption]

/-- C4: the reduction-kind switch inside `all_reduce` is total over the
enumerated kinds and maps SUM, PROD, MIN, MAX to the corresponding MPI
operations, with no runtime default. -/
theorem reduce_kind_mapping_total (r : reduction.Kind) :
    (r = reduction.Kind.SUM ∨ r = reduction.Kind.PROD
      ∨ r = reduction.Kind.MIN ∨ r = reduction.Kind.MAX)
    ∧ mpiReduceType reduction.Kind.SUM = MPI_Op.MPI_SUM
    ∧ mpiReduceType reduction.Kind.PROD = MPI_Op.MPI_PROD
    ∧ mpiReduceType reduction.Kind.MIN = MPI_Op.MPI_MIN
    ∧ mpiReduceType reduction.Kind.MAX = MPI_Op.MPI_MAX := by
  cases r <;> simp [mpiReduceType]

/-- C5: `send` and `recv` map booleans, every integer width, `f32` and `f64`
to the transport's native datatype, transport `bf16` and `f16` as opaque
`MPI_SHORT` values, and fail with "unsupported type" exactly for the
`undefined` and `dynamic` element types. -/
theorem send_recv_type_mapping (count : Nat) (peer : Int) :
    send element.Type_t.boolean count peer
        = Except.ok (MPICall.mpi_send MPI_Datatype.MPI_BYTE count peer)
    ∧ send element.Type_t.i8 count peer
        = Except.ok (MPICall.mpi_send MPI_Datatype.MPI_BYTE count peer)
    ∧ send element.Type_t.i16 count peer
        = Except.ok (MPICall.mpi_send MPI_Datatype.MPI_SHORT count peer)
    ∧ send element.Type_t.i32 count peer
        = Except.ok (MPICall.mpi_send MPI_Datatype.MPI_INT count peer)
    ∧ send element.Type_t.i64 count peer
        = Except.ok (MPICall.mpi_send MPI_Datatype.MPI_LONG count peer)
    ∧ send element.Type_t.u8 count peer
        = Except.ok (MPICall.mpi_send MPI_Datatype.MPI_UNSIGNED_CHAR count peer)
    ∧ send element.Type_t.u16 count peer
        = Except.ok (MPICall.mpi_send MPI_Datatype.MPI_UNSIGNED_SHORT count peer)
    ∧ send element.Type_t.u32 count peer
        = Except.ok (MPICall.mpi_send MPI_Datatype.MPI_UNSIGNED count peer)
    ∧ send element.Type_t.u64 count peer
        = Except.ok (MPICall.mpi_send MPI_Datatype.MPI_UNSIGNED_LONG count peer)
    ∧ send element.Type_t.f32 count peer
        = Except.ok (MPICall.mpi_send MPI_Datatype.MPI_FLOAT count peer)
    ∧ send element.Type_t.f64 count peer
        = Except.ok (MPICall.mpi_send MPI_Datatype.MPI_DOUBLE count peer)
    ∧ send element.Type_t.bf16 count peer
        = Except.ok (MPICall.mpi_send MPI_Datatype.MPI_SHORT count peer)
    ∧ send element.Type_t.f16 count peer
        = Except.ok (MPICall.mpi_send MPI_Datatype.MPI_SHORT count peer)
    ∧ send element.Type_t.undefined count peer
        = Except.error "unsupported type"
    ∧ send element.Type_t.dynamic count peer
        = Except.error "unsupported type"
    ∧ recv element.Type_t.boolean count peer
        = Except.ok (MPICall.mpi_recv MPI_Datatype.MPI_BYTE count peer)
    ∧ recv element.Type_t.i8 count peer
        = Except.ok (MPICall.mpi_recv MPI_Datatype.MPI_BYTE count peer)
    ∧ recv element.Type_t.i16 count peer
        = Except.ok (MPICall.mpi_recv MPI_Datatype.MPI_SHORT count peer)
    ∧ recv element.Type_t.i32 count peer
        = Except.ok (MPICall.mpi_recv MPI_Datatype.MPI_INT count peer)
    ∧ recv element.Type_t.i64 count peer
        = Except.ok (MPICall.mpi_recv MPI_Datatype.MPI_LONG count peer)
    ∧ recv element.Type_t.u8 count peer
        = Except.ok (MPICall.mpi_recv MPI_Datatype.MPI_UNSIGNED_CHAR count peer)
    ∧ recv element.Type_t.u16 count peer
        = Except.ok (MPICall.mpi_recv MPI_Datatype.MPI_UNSIGNED_SHORT count peer)
    ∧ recv element.Type_t.u32 count peer
        = Except.ok (MPICall.mpi_recv MPI_Datatype.MPI_UNSIGNED count peer)
    ∧ recv element.Type_t.u64 count peer
        = Except.ok (MPICall.mpi_recv MPI_Datatype.MPI_UNSIGNED_LONG count peer)
    ∧ recv element.Type_t.f32 count peer
        = Except.ok (MPICall.mpi_recv MPI_Datatype.MPI_FLOAT count peer)
    ∧ recv element.Type_t.f64 count peer
        = Except.ok (MPICall.mpi_recv MPI_Datatype.MPI_DOUBLE count peer)
    ∧ recv element.Type_t.bf16 count peer
        = Except.ok (MPICall.mpi_recv MPI_Datatype.MPI_SHORT count peer)
    ∧ recv element.Type_t.f16 count peer
        = Except.ok (MPICall.mpi_recv MPI_Datatype.MPI_SHORT count peer)
    ∧ recv element.Type_t.undefined count peer
        = Except.error "unsupported type"
    ∧ recv element.Type_t.dynamic count peer
        = Except.error "unsupported type" :=
  ⟨rfl, rfl, rfl, rfl, rfl, rfl, rfl, rfl, rfl, rfl, rfl, rfl, rfl, rfl, rfl,
   rfl, rfl, rfl, rfl, rfl, rfl, rfl, rfl, rfl, rfl, rfl, rfl, rfl, rfl, rfl⟩

open pass

/-- C2: looking up an operator identity with no registered converter fails
with the unsupported-operator condition carrying that operator's name and
emits no target-IR construct; and the registered converter for `v0::MVN`,
invoked on any node whose identity is `v0::MVN`, throws `unsupported_op`
with the message "Unsupported op 'v0::MVN'" and constructs no operation. -/
theorem unsupported_op_lowering
    (table : List (String × (NgNode → Except ConvertError MLIROp)))
    (node : NgNode) (opName : String)
    (habs : table.find? (fun entry => entry.1 == opName) = none)
    (mvnNode : NgNode) (hmvn : mvnNode.identity = NgOpIdentity.v0_MVN) :
    dispatchLower table node opName
      = Except.error
          (ConvertError.unsupported_op ("Unsupported op '" ++ opName ++ "'"))
    ∧ createOp_MVN mvnNode
      = Except.error
          (ConvertError.unsupported_op "Unsupported op 'v0::MVN'") := by
  constructor
  · simp [dispatchLower, habs]
  · simp [createOp_MVN, hmvn]

/-- C2 witness: the empty table at identity "v0::MVN", and a concrete
`v0::MVN` node. -/
theorem unsupported_op_lowering_witness :
    dispatchLower [] { identity := NgOpIdentity.v0_MVN } "v0::MVN"
      = Except.error
          (ConvertError.unsupported_op "Unsupported op 'v0::MVN'")
    ∧ createOp_MVN { identity := NgOpIdentity.v0_MVN }
      = Except.error
          (ConvertError.unsupported_op "Unsupported op 'v0::MVN'") :=
  unsupported_op_lowering [] { identity := NgOpIdentity.v0_MVN } "v0::MVN"
    rfl { identity := NgOpIdentity.v0_MVN } rfl

/-- C8: with four ranks contributing `r+1` in every element, `all_reduce`
with SUM delivers 10 in every element of the output on every calling rank
(whatever that rank's prior `out` contents), for element types f32 and f64;
with PROD it delivers 24; no error is raised and exactly one transport call
is made. -/
theorem all_reduce_four_ranks_sum_prod (n : Nat) (out : List Int) :
    (all_reduce
        [List.replicate n 1, List.replicate n 2,
         List.replicate n 3, List.replicate n 4]
        out element.Type_t.f32 reduction.Kind.SUM n).1
      = List.replicate n 10
    ∧ (all_reduce
        [List.replicate n 1, List.replicate n 2,
         List.replicate n 3, List.replicate n 4]
        out element.Type_t.f64 reduction.Kind.SUM n).1
      = List.replicate n 10
    ∧ (all_reduce
        [List.replicate n 1, List.replicate n 2,
         List.replicate n 3, List.replicate n 4]
        out element.Type_t.f32 reduction.Kind.PROD n).1
      = List.replicate n 24
    ∧ (all_reduce
        [List.replicate n 1, List.replicate n 2,
         List.replicate n 3, List.replicate n 4]
        out element.Type_t.f64 reduction.Kind.PROD n).1
      = List.replicate n 24
    ∧ (all_reduce
        [List.replicate n 1, List.replicate n 2,
         List.replicate n 3, List.replicate n 4]
        out element.Type_t.f32 reduction.Kind.SUM n).2.2 = none
    ∧ (all_reduce
        [List.replicate n 1, List.replicate n 2,
         List.replicate n 3, List.replicate n 4]
        out element.Type_t.f64 reduction.Kind.PROD n).2.2 = none := by
  refine ⟨?_, ?_, ?_, ?_, ?_, ?_⟩ <;>
    simp [all_reduce, allReduceDatatype, mpiReduceType, mpiAllreduceModel,
          mpiOpFold, List.zipWith_replicate]

/-- C10: calling `all_reduce` with any element type other than f32 and f64
throws the "supports only f32 and f64 types" message before the
reduction-kind mapping and before any transport call: the trace is empty and
the output buffer is returned unmodified. -/
theorem all_reduce_atomic_on_unsupported_type
    (group_inputs : List (List Int)) (out : List Int)
    (t : element.Type_t) (rt : reduction.Kind) (count : Nat)
    (h32 : t ≠ element.Type_t.f32) (h64 : t ≠ element.Type_t.f64) :
    all_reduce group_inputs out t rt count
      = (out, [], some "AllReduce op supports only f32 and f64 types") := by
  simp [all_reduce, allReduceDatatype, h32, h64]

/-- C10 witness: all_reduce at bf16 with a nonempty output buffer. -/
theorem all_reduce_atomic_on_unsupported_type_witness :
    all_reduce [[1], [2]] [7] element.Type_t.bf16 reduction.Kind.SUM 1
      = ([7], [], some "AllReduce op supports only f32 and f64 types") :=
  all_reduce_atomic_on_unsupported_type [[1], [2]] [7] element.Type_t.bf16
    reduction.Kind.SUM 1 (by decide) (by decide)

open op

/-- C9: constructing an `LSTMCell` with the defaulted trailing arguments
omitted yields the very cell constructed with the explicit values
`activations = (sigmoid, tanh, tanh)`, empty alpha/beta, `clip = 0`,
`input_forget = false`. -/
theorem lstm_cell_defaults (X W R H_t C_t : NodeRef) (hidden_size : Nat)
    (B P : NodeRef) :
    LSTMCell.constructOmitted X W R H_t C_t hidden_size B P
      = LSTMCell.construct X W R H_t C_t hidden_size B P
          ["sigmoid", "tanh", "tanh"] [] [] 0 false
    ∧ (LSTMCell.constructOmitted X W R H_t C_t hidden_size B P).activations
      = ["sigmoid", "tanh", "tanh"]
    ∧ (LSTMCell.constructOmitted X W R H_t C_t hidden_size B P).clip = 0
    ∧ (LSTMCell.constructOmitted X W R H_t C_t hidden_size B P).m_input_forget
      = false :=
  ⟨rfl, rfl, rfl, rfl⟩

end ngraph
